import Mathlib

/-!
Shallow embedding of the RidelinkApp ride-hailing core
(`src/services/firebaseService.ts` and the derived read-side projections in
the passenger/driver dashboards), together with theorems settling the frozen
claims about it.

Modelling conventions:
* Firestore collections are association lists `List (String × Doc)` in
  insertion order; the document id is the key and is NOT part of the stored
  document data (`doc.data()` never contains the id; the listeners re-attach
  it as `{ id: doc.id, ...doc.data() }`).  A stored map that may or may not
  contain an `id` key is modelled with an `Option String` field.
* JavaScript numbers are modelled as `ℚ` (exact for the arithmetic the code
  performs on them); server timestamps as `ℕ`.
* `getDoc`/`find?` returns the first entry with the key; `updateDoc` patches
  every entry with the key and fails when none exists; `deleteDoc` removes
  the entries with the key and succeeds even when none exists; `addDoc`
  appends a fresh-keyed entry; these are the Firestore semantics.
* `runTransaction` bodies are modelled as one atomic step
  `Store → Except String Store`: either the whole new store or an error with
  no effect (Firestore aborts the transaction when the body throws).
* The trigonometric distance/ETA projection in the passenger dashboard is
  modelled over `ℝ` (the idealisation of the IEEE doubles the code uses);
  `Math.atan2` is `jsAtan2` below, `Math.round` is Mathlib `round`
  (both round half up).
-/

namespace Ridelink

/-- `UserRole` from `src/types.ts`. -/
inductive Role where
  | PASSENGER
  | DRIVER
  | ADMIN
deriving DecidableEq, Repr

/-- `RideRequest.status` from `src/types.ts`. -/
inductive Status where
  | PENDING
  | ACCEPTED
  | COMPLETED
  | CANCELLED
deriving DecidableEq, Repr

/-- `CarDetails` from `src/types.ts`. -/
structure CarDetails where
  make : String
  model : String
  color : String
  licensePlate : String
deriving DecidableEq, Repr

/-- The driver rating aggregate `{ average, count }` stored on a user profile
(written by `createUserProfile` and `submitRating`). -/
structure RatingAgg where
  average : ℚ
  count : ℕ
deriving DecidableEq, Repr

/-- A `User` value as the services receive it (`src/types.ts` `User`, with the
driver-only optional fields the service reads).  The `id` is the auth uid. -/
structure User where
  id : String
  name : String
  avatarUrl : String
  email : String
  role : Role
  isVerified : Bool
  carDetails : Option CarDetails := none
  rating : Option RatingAgg := none
deriving DecidableEq, Repr

/-- The data stored in a bid document of the `rideRequests/{id}/bids`
subcollection (`addBidToRequest`).  `id` models the optional `id` key of the
stored map: `addDoc` stores the object WITHOUT an id (the document id is the
key, re-attached only by `listenForBids` as `{ id: doc.id, ...doc.data() }`),
so stored bid data always carries `id = none`. -/
structure BidData where
  id : Option String := none
  driver : User
  amount : ℚ
  driverLocation : Option (ℚ × ℚ) := none
  timestamp : ℕ
deriving DecidableEq, Repr

/-- A document of the `rideRequests` collection (`createRideRequest`,
`acceptBid`, `completeRide`). -/
structure RequestDoc where
  passenger : User
  location : String
  destination : String
  status : Status
  timestamp : ℕ
  acceptedBidId : Option String := none
  acceptedBid : Option BidData := none
deriving DecidableEq, Repr

/-- A document of the `users` collection (the profile fields the modelled
operations read or write). -/
structure UserDoc where
  name : String
  avatarUrl : String
  email : String
  role : Role
  isVerified : Bool
  carDetails : Option CarDetails := none
  licenseUrl : Option String := none
  isAvailable : Option Bool := none
  rating : Option RatingAgg := none
deriving DecidableEq, Repr

/-- A document of the `ratings` collection (`submitRating`). -/
structure RatingDoc where
  driverId : String
  rideRequestId : String
  passengerId : String
  rating : ℚ
  review : String
  timestamp : ℕ
deriving DecidableEq, Repr

/-- The Firestore state touched by the modelled operations.  Bids live in
per-request subcollections `rideRequests/{requestId}/bids`; they are kept
here as `(requestId, bidId, data)` triples in insertion order.  Deleting a
request document does NOT delete its subcollection (Firestore semantics), so
bids of a cancelled request remain as orphans. -/
structure Store where
  users : List (String × UserDoc)
  requests : List (String × RequestDoc)
  bids : List (String × String × BidData)
  ratings : List (String × RatingDoc)
deriving DecidableEq, Repr

def emptyStore : Store := ⟨[], [], [], []⟩

/-- Firestore `getDoc`: the document stored under a key (first match). -/
def getDoc (l : List (String × α)) (k : String) : Option α :=
  (l.find? (fun p => p.1 == k)).map (fun p => p.2)

/-- Firestore `updateDoc` field patch applied to the document under key `k`
(callers check existence separately, since `updateDoc` rejects when the
document is missing). -/
def updateDocIn (l : List (String × α)) (k : String) (f : α → α) :
    List (String × α) :=
  l.map (fun p => if p.1 == k then (p.1, f p.2) else p)

/-- Firestore `deleteDoc`: removes the document under key `k`; succeeds (as a
no-op) when the document does not exist. -/
def deleteDocFrom (l : List (String × α)) (k : String) : List (String × α) :=
  l.filter (fun p => !(p.1 == k))

/-- Lookup of one bid document in the `rideRequests/{requestId}/bids`
subcollection. -/
def getBid (s : Store) (requestId bidId : String) : Option BidData :=
  (s.bids.find? (fun p => p.1 == requestId && p.2.1 == bidId)).map (fun p => p.2.2)

/-- `createRideRequest(passenger, location, destination)`
(`src/services/firebaseService.ts:131`): unconditionally `addDoc`s a new
request with a denormalised passenger snapshot
(`{id, name, avatarUrl, email, role: PASSENGER, isVerified}`), status
`PENDING` and a server timestamp.  There is no uniqueness or conflict check
of any kind in the source.  `newId` is the Firestore auto id, `now` the
server timestamp. -/
def createRideRequest (s : Store) (passenger : User) (location destination : String)
    (newId : String) (now : ℕ) : Store :=
  { s with requests := s.requests ++ [(newId,
      { passenger :=
          { id := passenger.id
            name := passenger.name
            avatarUrl := passenger.avatarUrl
            email := passenger.email
            role := Role.PASSENGER
            isVerified := passenger.isVerified }
        location := location
        destination := destination
        status := Status.PENDING
        timestamp := now })] }

/-- `cancelRideRequest(requestId)` (`src/services/firebaseService.ts:151`):
a bare `deleteDoc` of the request document.  No status check of any kind;
`deleteDoc` succeeds even when the document does not exist, and removes the
record entirely (hard delete). -/
def cancelRideRequest (s : Store) (requestId : String) : Store :=
  { s with requests := deleteDocFrom s.requests requestId }

/-- `acceptBid(requestId, bidId)` (`src/services/firebaseService.ts:249`):
`getDoc` the bid; if missing, throw `Error("Bid not found!")`; otherwise one
single `updateDoc` on the request document setting `status`, `acceptedBidId`
and `acceptedBid` (the bid document data, which carries no `id` key)
together.  The request status is never read or checked.  `updateDoc` fails
with a not-found error when the request document does not exist. -/
def acceptBid (s : Store) (requestId bidId : String) : Except String Store :=
  match getBid s requestId bidId with
  | none => .error "Bid not found!"
  | some bidData =>
    match getDoc s.requests requestId with
    | none => .error "not-found"
    | some _ => .ok { s with requests := updateDocIn s.requests requestId (fun req =>
        { req with
            status := Status.ACCEPTED
            acceptedBidId := some bidId
            acceptedBid := some bidData }) }

/-- `completeRide(requestId)` (`src/services/firebaseService.ts:297`):
a bare `updateDoc { status: 'COMPLETED' }`, failing only when the request
document does not exist. -/
def completeRide (s : Store) (requestId : String) : Except String Store :=
  match getDoc s.requests requestId with
  | none => .error "not-found"
  | some _ => .ok { s with requests := (updateDocIn s.requests requestId
      (fun req => { req with status := Status.COMPLETED })) }

/-- `addBidToRequest(requestId, driver, amount, driverLocation?)`
(`src/services/firebaseService.ts:215`): unconditionally `addDoc`s a bid with
a denormalised driver snapshot into the request's subcollection.  The source
performs NO verification check and NO amount check — every call stores its
bid.  `newBidId` is the Firestore auto id, `now` the server timestamp. -/
def addBidToRequest (s : Store) (requestId : String) (driver : User) (amount : ℚ)
    (driverLocation : Option (ℚ × ℚ)) (newBidId : String) (now : ℕ) : Store :=
  { s with bids := s.bids ++ [(requestId, newBidId,
      { id := none
        driver :=
          { id := driver.id
            name := driver.name
            avatarUrl := driver.avatarUrl
            email := driver.email
            role := Role.DRIVER
            isVerified := driver.isVerified
            carDetails := driver.carDetails
            rating := driver.rating }
        amount := amount
        driverLocation := driverLocation
        timestamp := now })] }

/-- `submitRating(driverId, rideRequestId, passengerId, rating, review)`
(`src/services/firebaseService.ts:300`): one `runTransaction` that reads the
driver profile (throwing `"Driver does not exist!"` when absent, which aborts
the transaction with no effect), treats a missing rating aggregate as
`{average: 0, count: 0}`, writes back
`{average: (average*count + rating)/(count+1), count: count+1}` and inserts
the new rating document — all in the same transaction. -/
def submitRating (s : Store) (driverId rideRequestId passengerId : String)
    (rating : ℚ) (review : String) (newRatingId : String) (now : ℕ) :
    Except String Store :=
  match getDoc s.users driverId with
  | none => .error "Driver does not exist!"
  | some _ =>
    .ok { s with
      users := updateDocIn s.users driverId (fun u =>
        let currentRating := u.rating.getD { average := 0, count := 0 }
        let newCount : ℕ := currentRating.count + 1
        let newAverage :=
          ((currentRating.average * currentRating.count) + rating) / (newCount : ℚ)
        { u with rating := some { average := newAverage, count := newCount } })
      ratings := s.ratings ++ [(newRatingId,
        { driverId := driverId
          rideRequestId := rideRequestId
          passengerId := passengerId
          rating := rating
          review := review
          timestamp := now })] }

/-- Firestore's total order on document ids: lexicographic by code point
(byte order of the UTF-8 encoding; identical to code-point order for the
ASCII auto ids Firestore generates). -/
def docIdLE (a b : String) : Prop :=
  a.data.map Char.toNat ≤ b.data.map Char.toNat

/-- The presentation order of `listenForBids` (`src/services/firebaseService.ts:236`):
the query is `orderBy("amount", "asc")`; Firestore appends the document id
(`__name__`, ascending) as the final sort criterion, so ties in `amount` are
ordered by document id. -/
def bidOrder (a b : String × BidData) : Prop :=
  a.2.amount < b.2.amount ∨ (a.2.amount = b.2.amount ∧ docIdLE a.1 b.1)

instance : DecidableRel docIdLE := fun a b => by
  unfold docIdLE; infer_instance

instance : DecidableRel bidOrder := fun a b => by
  unfold bidOrder; infer_instance

instance : IsTotal (String × BidData) bidOrder := ⟨by
  intro a b
  rcases lt_trichotomy a.2.amount b.2.amount with h | h | h
  · exact Or.inl (Or.inl h)
  · rcases le_total (a.1.data.map Char.toNat) (b.1.data.map Char.toNat) with hs | hs
    · exact Or.inl (Or.inr ⟨h, hs⟩)
    · exact Or.inr (Or.inr ⟨h.symm, hs⟩)
  · exact Or.inr (Or.inl h)⟩

instance : IsTrans (String × BidData) bidOrder := ⟨by
  intro a b c hab hbc
  rcases hab with h1 | ⟨h1e, h1s⟩
  · rcases hbc with h2 | ⟨h2e, h2s⟩
    · exact Or.inl (h1.trans h2)
    · exact Or.inl (by rw [← h2e]; exact h1)
  · rcases hbc with h2 | ⟨h2e, h2s⟩
    · exact Or.inl (by rw [h1e]; exact h2)
    · exact Or.inr ⟨h1e.trans h2e, le_trans h1s h2s⟩⟩

/-- `listenForBids(requestId)` (`src/services/firebaseService.ts:236`): the
list of `{ id: doc.id, ...doc.data() }` pairs of the request's bid
subcollection, in the query order `orderBy("amount", "asc")` with the
document id as Firestore's implicit final tiebreak. -/
def listenForBids (s : Store) (requestId : String) : List (String × BidData) :=
  List.insertionSort bidOrder
    ((s.bids.filter (fun p => p.1 == requestId)).map (fun p => (p.2.1, p.2.2)))

/-- The guard of `BidModal.handleSubmit`
(`src/components/driver/DriverDashboard.tsx:185`):
`if (!isNaN(bidAmount) && bidAmount > 0 && !isBidding) onBid(...)`.
`parsedAmount = none` models `parseInt` returning `NaN`.  The guard silently
does nothing when it fails — no error of any kind is raised. -/
def bidModalSubmitGuard (parsedAmount : Option ℤ) (isBidding : Bool) : Bool :=
  match parsedAmount with
  | none => false
  | some v => decide (0 < v) && !isBidding

/-- The ride-lifecycle operations of `firebaseService.ts` that write to the
modelled collections. -/
inductive Op where
  | create (passenger : User) (location destination newId : String) (now : ℕ)
  | cancel (requestId : String)
  | accept (requestId bidId : String)
  | complete (requestId : String)
  | addBid (requestId : String) (driver : User) (amount : ℚ)
      (driverLocation : Option (ℚ × ℚ)) (newBidId : String) (now : ℕ)
  | rate (driverId rideRequestId passengerId : String) (rating : ℚ)
      (review newRatingId : String) (now : ℕ)

/-- Execute one operation; a failing operation (rejected promise / aborted
transaction) leaves the store unchanged. -/
def applyOp (s : Store) : Op → Store
  | .create p l d i n => createRideRequest s p l d i n
  | .cancel r => cancelRideRequest s r
  | .accept r b =>
    match acceptBid s r b with
    | .ok s2 => s2
    | .error _ => s
  | .complete r =>
    match completeRide s r with
    | .ok s2 => s2
    | .error _ => s
  | .addBid r d a loc i n => addBidToRequest s r d a loc i n
  | .rate d rr p rt rv i n =>
    match submitRating s d rr p rt rv i n with
    | .ok s2 => s2
    | .error _ => s

def runOps (ops : List Op) (s : Store) : Store := ops.foldl applyOp s

/-- Requests with this passenger id in status PENDING or ACCEPTED (the
"active request" notion of the spec's uniqueness invariant, and of the
`getActiveRideRequestForPassenger` query). -/
def activeRequestCount (s : Store) (passengerId : String) : ℕ :=
  (s.requests.filter (fun p =>
    p.2.passenger.id == passengerId &&
      (p.2.status == Status.PENDING || p.2.status == Status.ACCEPTED))).length

/-- Number of rating documents for one ride request id. -/
def ratingCountFor (s : Store) (rideRequestId : String) : ℕ :=
  (s.ratings.filter (fun p => p.2.rideRequestId == rideRequestId)).length

/-! ## The derived distance / ETA projection
(`ActiveRequestView` in the passenger dashboard, `src/unnamed/part_001`). -/

/-- JavaScript `Math.atan2(y, x)` over the real idealisation (the quadrant
case split of the standard definition; the `±0` distinction of IEEE doubles
collapses on `ℝ`). -/
noncomputable def jsAtan2 (y x : ℝ) : ℝ :=
  if 0 < x then Real.arctan (y / x)
  else if x < 0 ∧ 0 ≤ y then Real.arctan (y / x) + Real.pi
  else if x < 0 ∧ y < 0 then Real.arctan (y / x) - Real.pi
  else if x = 0 ∧ 0 < y then Real.pi / 2
  else if x = 0 ∧ y < 0 then -(Real.pi / 2)
  else 0

/-- `getDistanceFromLatLonInKm(lat1, lon1, lat2, lon2)` from
`ActiveRequestView` (`src/unnamed/part_001:238`): haversine-style distance,
`R = 6371` km, `c = 2 * Math.atan2(Math.sqrt(a), Math.sqrt(1 - a))`. -/
noncomputable def getDistanceFromLatLonInKm (lat1 lon1 lat2 lon2 : ℝ) : ℝ :=
  let R : ℝ := 6371
  let dLat := (lat2 - lat1) * (Real.pi / 180)
  let dLon := (lon2 - lon1) * (Real.pi / 180)
  let a := Real.sin (dLat / 2) * Real.sin (dLat / 2) +
    Real.cos (lat1 * (Real.pi / 180)) * Real.cos (lat2 * (Real.pi / 180)) *
      Real.sin (dLon / 2) * Real.sin (dLon / 2)
  let c := 2 * jsAtan2 (Real.sqrt a) (Real.sqrt (1 - a))
  R * c

/-- `calculateEtaInMinutes(distanceInKm)` (`src/unnamed/part_001:250`):
`eta = Math.round(distance / 30 * 60); return eta < 1 ? 1 : eta`. -/
noncomputable def calculateEtaInMinutes (distanceInKm : ℝ) : ℤ :=
  let timeInHours := distanceInKm / 30
  let eta := round (timeInHours * 60)
  if eta < 1 then 1 else eta

/-- The acceptance invariant that the store maintains: a request in status
`ACCEPTED` carries both `acceptedBidId` and an `acceptedBid` snapshot (all
three fields are written by the one `updateDoc` of `acceptBid`), and the
snapshot — being raw `doc.data()` — carries no `id` key; likewise every
stored bid document carries no `id` key. -/
def acceptedInv (s : Store) : Prop :=
  (∀ p ∈ s.requests, p.2.status = Status.ACCEPTED →
      (∃ b, p.2.acceptedBidId = some b) ∧
        ∃ bd, p.2.acceptedBid = some bd ∧ bd.id = none) ∧
  ∀ q ∈ s.bids, q.2.2.id = none

/-! ## Concrete fixtures used by witnesses and counterexamples -/

def paxUser : User :=
  { id := "p1", name := "Pat", avatarUrl := "av-p", email := "pat@x.test",
    role := Role.PASSENGER, isVerified := true }

def drvUser : User :=
  { id := "d1", name := "Drew", avatarUrl := "av-d", email := "drew@x.test",
    role := Role.DRIVER, isVerified := true,
    carDetails := some { make := "Toyota", model := "Camry", color := "Silver",
                         licensePlate := "ABC-123" },
    rating := some { average := 4, count := 3 } }

def unverifiedUser : User :=
  { id := "d2", name := "Uve", avatarUrl := "av-u", email := "uve@x.test",
    role := Role.DRIVER, isVerified := false }

/-- A store with one PENDING request by `paxUser`. -/
def sPending : Store :=
  runOps [Op.create paxUser "Lekki" "Ikeja" "r1" 0] emptyStore

/-- A store in which `paxUser`'s request `r1` got a bid `b1` that was
accepted. -/
def sAccepted : Store :=
  runOps [Op.create paxUser "Lekki" "Ikeja" "r1" 0,
          Op.addBid "r1" drvUser 3000 none "b1" 1,
          Op.accept "r1" "b1"] emptyStore

/-- Like `sAccepted` but with a second, competing bid `b2` still present. -/
def sAcceptedTwoBids : Store :=
  runOps [Op.create paxUser "Lekki" "Ikeja" "r1" 0,
          Op.addBid "r1" drvUser 3000 none "b1" 1,
          Op.addBid "r1" drvUser 2500 none "b2" 2,
          Op.accept "r1" "b1"] emptyStore

/-- Bids of amounts [5000, 3000, 4000] submitted in that order (the spec's
bid-ordering scenario). -/
def sBidsScenario : Store :=
  runOps [Op.create paxUser "Lekki" "Ikeja" "r1" 0,
          Op.addBid "r1" drvUser 5000 none "k1" 1,
          Op.addBid "r1" drvUser 3000 none "k2" 2,
          Op.addBid "r1" drvUser 4000 none "k3" 3] emptyStore

/-- Two bids with EQUAL amounts, submitted first under document id "zz",
then under document id "aa" (Firestore auto ids are random, so any relative
order of ids and submission times occurs). -/
def sBidsTie : Store :=
  runOps [Op.create paxUser "Lekki" "Ikeja" "r1" 0,
          Op.addBid "r1" drvUser 3000 none "zz" 1,
          Op.addBid "r1" drvUser 3000 none "aa" 2] emptyStore

/-- A driver profile document holding the rating aggregate
`{average: 4.0, count: 3}` (the spec's average-correctness scenario). -/
def drvDoc43 : UserDoc :=
  { name := "Drew", avatarUrl := "av-d", email := "drew@x.test",
    role := Role.DRIVER, isVerified := true,
    rating := some { average := 4, count := 3 } }

/-- A driver profile document with no rating aggregate at all. -/
def drvDocNoAgg : UserDoc :=
  { name := "Drew", avatarUrl := "av-d", email := "drew@x.test",
    role := Role.DRIVER, isVerified := true, rating := none }

def sDriver43 : Store := { emptyStore with users := [("d1", drvDoc43)] }

def sDriverNoAgg : Store := { emptyStore with users := [("d1", drvDocNoAgg)] }

/-- The request document `r1` as it is stored in `sAccepted`. -/
def reqAccepted : RequestDoc :=
  { passenger := paxUser
    location := "Lekki"
    destination := "Ikeja"
    status := Status.ACCEPTED
    timestamp := 0
    acceptedBidId := some "b1"
    acceptedBid := some { id := none, driver := drvUser, amount := 3000,
                          driverLocation := none, timestamp := 1 } }

/-- The spec's wording of the distance projection, for the refinement part of
the distance claim: "compute great-circle distance via the haversine formula
(Earth radius 6371 km)" — the textbook haversine form
`d = 2 R arcsin (sqrt a)`. -/
noncomputable def haversineDistanceSpec (lat1 lon1 lat2 lon2 : ℝ) : ℝ :=
  let R : ℝ := 6371
  let dLat := (lat2 - lat1) * (Real.pi / 180)
  let dLon := (lon2 - lon1) * (Real.pi / 180)
  let a := Real.sin (dLat / 2) ^ 2 +
    Real.cos (lat1 * (Real.pi / 180)) * Real.cos (lat2 * (Real.pi / 180)) *
      Real.sin (dLon / 2) ^ 2
  2 * R * Real.arcsin (Real.sqrt a)

/-! ## Association-list lemmas for the Firestore primitives -/

lemma getDoc_cons (p : String × α) (t : List (String × α)) (k : String) :
    getDoc (p :: t) k = if p.1 == k then some p.2 else getDoc t k := by
  by_cases h : p.1 == k
  · simp [getDoc, List.find?_cons_of_pos _ h, h]
  · simp [getDoc, List.find?_cons_of_neg _ h, h]

lemma getDoc_append_fresh (l : List (String × α)) (k : String) (v : α)
    (h : getDoc l k = none) : getDoc (l ++ [(k, v)]) k = some v := by
  have h0 : l.find? (fun p => p.1 == k) = none := by
    cases hf : l.find? (fun p => p.1 == k) with
    | none => rfl
    | some p => rw [getDoc, hf] at h; simp at h
  rw [getDoc, List.find?_append, h0]
  simp

lemma getDoc_updateDocIn (l : List (String × α)) (k : String) (f : α → α) :
    getDoc (updateDocIn l k f) k = (getDoc l k).map f := by
  induction l with
  | nil => rfl
  | cons p t ih =>
    by_cases h : p.1 = k
    · rw [updateDocIn, List.map_cons, if_pos (by simpa using h),
        getDoc_cons, getDoc_cons]
      simp [h]
    · rw [updateDocIn, List.map_cons, if_neg (by simpa using h),
        getDoc_cons, getDoc_cons, if_neg (by simpa using h),
        if_neg (by simpa using h)]
      exact ih

lemma getDoc_updateDocIn_ne (l : List (String × α)) (k j : String) (f : α → α)
    (hne : j ≠ k) : getDoc (updateDocIn l k f) j = getDoc l j := by
  induction l with
  | nil => rfl
  | cons p t ih =>
    by_cases h : p.1 = k
    · have hj : p.1 ≠ j := by rw [h]; exact fun hh => hne hh.symm
      rw [updateDocIn, List.map_cons, if_pos (by simpa using h),
        getDoc_cons, getDoc_cons, if_neg (by simpa using hj),
        if_neg (by simpa using hj)]
      exact ih
    · rw [updateDocIn, List.map_cons, if_neg (by simpa using h),
        getDoc_cons, getDoc_cons]
      by_cases hj : p.1 = j
      · simp [hj]
      · rw [if_neg (by simpa using hj), if_neg (by simpa using hj)]
        exact ih

lemma getDoc_deleteDocFrom (l : List (String × α)) (k : String) :
    getDoc (deleteDocFrom l k) k = none := by
  induction l with
  | nil => rfl
  | cons p t ih =>
    by_cases h : p.1 = k
    · have hd : deleteDocFrom (p :: t) k = deleteDocFrom t k := by
        simp [deleteDocFrom, List.filter_cons, h]
      rw [hd]
      exact ih
    · have hd : deleteDocFrom (p :: t) k = p :: deleteDocFrom t k := by
        simp [deleteDocFrom, List.filter_cons, h]
      rw [hd, getDoc_cons, if_neg (by simpa using h)]
      exact ih

lemma getDoc_deleteDocFrom_ne (l : List (String × α)) (k j : String)
    (hne : j ≠ k) : getDoc (deleteDocFrom l k) j = getDoc l j := by
  induction l with
  | nil => rfl
  | cons p t ih =>
    by_cases h : p.1 = k
    · have hd : deleteDocFrom (p :: t) k = deleteDocFrom t k := by
        simp [deleteDocFrom, List.filter_cons, h]
      have hj : p.1 ≠ j := by rw [h]; exact fun hh => hne hh.symm
      rw [hd, getDoc_cons, if_neg (by simpa using hj)]
      exact ih
    · have hd : deleteDocFrom (p :: t) k = p :: deleteDocFrom t k := by
        simp [deleteDocFrom, List.filter_cons, h]
      rw [hd, getDoc_cons, getDoc_cons]
      by_cases hj : p.1 = j
      · simp [hj]
      · rw [if_neg (by simpa using hj), if_neg (by simpa using hj)]
        exact ih

lemma getDoc_mem {l : List (String × α)} {k : String} {v : α}
    (h : getDoc l k = some v) : (k, v) ∈ l := by
  rw [getDoc] at h
  cases hf : l.find? (fun p => p.1 == k) with
  | none => rw [hf] at h; simp at h
  | some p =>
    rw [hf] at h
    have hkey := List.find?_some hf
    have hmem : p ∈ l := List.mem_of_find?_eq_some hf
    have h2 : p.2 = v := by simpa using h
    have h1 : p.1 = k := by simpa using hkey
    have : (k, v) = p := by
      cases p; simp_all
    rwa [this]

lemma getBid_mem {s : Store} {r b : String} {bd : BidData}
    (h : getBid s r b = some bd) : (r, b, bd) ∈ s.bids := by
  rw [getBid] at h
  cases hf : s.bids.find? (fun p => p.1 == r && p.2.1 == b) with
  | none => rw [hf] at h; simp at h
  | some q =>
    rw [hf] at h
    have hkey := List.find?_some hf
    have hmem : q ∈ s.bids := List.mem_of_find?_eq_some hf
    have h2 : q.2.2 = bd := by simpa using h
    simp only [Bool.and_eq_true, beq_iff_eq] at hkey
    have : (r, b, bd) = q := by
      obtain ⟨q1, q2, q3⟩ := q
      simp_all
    rwa [this]

lemma getBid_append_fresh (s : Store) (r b : String) (bd : BidData)
    (h : getBid s r b = none) :
    getBid { s with bids := s.bids ++ [(r, b, bd)] } r b = some bd := by
  have h0 : s.bids.find? (fun p => p.1 == r && p.2.1 == b) = none := by
    cases hf : s.bids.find? (fun p => p.1 == r && p.2.1 == b) with
    | none => rfl
    | some p => rw [getBid, hf] at h; simp at h
  rw [getBid]
  simp only [List.find?_append, h0]
  simp

/-! ## Preservation of the acceptance invariant -/

lemma acceptedInv_acceptBid {s s2 : Store} {r b : String}
    (h : acceptedInv s) (hok : acceptBid s r b = .ok s2) : acceptedInv s2 := by
  unfold acceptBid at hok
  split at hok
  · simp at hok
  · rename_i bd hgb
    split at hok
    · simp at hok
    · simp only [Except.ok.injEq] at hok
      subst hok
      have hbdid : bd.id = none := h.2 _ (getBid_mem hgb)
      refine ⟨?_, h.2⟩
      intro p hp hacc
      rcases List.mem_map.mp hp with ⟨q, hq, hfq⟩
      by_cases hqk : (q.1 == r) = true
      · rw [if_pos hqk] at hfq
        rw [← hfq]
        exact ⟨⟨b, rfl⟩, bd, rfl, hbdid⟩
      · rw [if_neg hqk] at hfq
        rw [← hfq]
        exact h.1 q hq (by rw [hfq]; exact hacc)

lemma acceptedInv_completeRide {s s2 : Store} {r : String}
    (h : acceptedInv s) (hok : completeRide s r = .ok s2) : acceptedInv s2 := by
  unfold completeRide at hok
  split at hok
  · simp at hok
  · simp only [Except.ok.injEq] at hok
    subst hok
    refine ⟨?_, h.2⟩
    intro p hp hacc
    rcases List.mem_map.mp hp with ⟨q, hq, hfq⟩
    by_cases hqk : (q.1 == r) = true
    · rw [if_pos hqk] at hfq
      rw [← hfq] at hacc
      simp at hacc
    · rw [if_neg hqk] at hfq
      rw [← hfq]
      exact h.1 q hq (by rw [hfq]; exact hacc)

lemma acceptedInv_submitRating {s s2 : Store} {d rr pax : String} {rt : ℚ}
    {rv i : String} {n : ℕ}
    (h : acceptedInv s) (hok : submitRating s d rr pax rt rv i n = .ok s2) :
    acceptedInv s2 := by
  unfold submitRating at hok
  split at hok
  · simp at hok
  · simp only [Except.ok.injEq] at hok
    subst hok
    exact ⟨h.1, h.2⟩

lemma acceptedInv_applyOp (s : Store) (op : Op) (h : acceptedInv s) :
    acceptedInv (applyOp s op) := by
  cases op with
  | create p l d i n =>
    refine ⟨?_, h.2⟩
    intro q hq hacc
    rcases List.mem_append.mp hq with hin | hnew
    · exact h.1 q hin hacc
    · have : q = (i, _) := List.mem_singleton.mp hnew
      rw [this] at hacc
      simp [createRideRequest] at hacc
  | cancel r =>
    refine ⟨?_, h.2⟩
    intro q hq hacc
    exact h.1 q (List.mem_of_mem_filter hq) hacc
  | accept r b =>
    simp only [applyOp]
    cases hA : acceptBid s r b with
    | ok s2 => exact acceptedInv_acceptBid h hA
    | error e => exact h
  | complete r =>
    simp only [applyOp]
    cases hA : completeRide s r with
    | ok s2 => exact acceptedInv_completeRide h hA
    | error e => exact h
  | addBid r d a loc i n =>
    refine ⟨h.1, ?_⟩
    intro q hq
    rcases List.mem_append.mp hq with hin | hnew
    · exact h.2 q hin
    · have : q = (r, i, _) := List.mem_singleton.mp hnew
      rw [this]
  | rate d rr pax rt rv i n =>
    simp only [applyOp]
    cases hA : submitRating s d rr pax rt rv i n with
    | ok s2 => exact acceptedInv_submitRating h hA
    | error e => exact h

lemma acceptedInv_runOps (ops : List Op) (s : Store) (h : acceptedInv s) :
    acceptedInv (runOps ops s) := by
  induction ops generalizing s with
  | nil => exact h
  | cons op t ih => exact ih (applyOp s op) (acceptedInv_applyOp s op h)

lemma acceptedInv_emptyStore : acceptedInv emptyStore := by
  constructor
  · intro p hp
    simp [emptyStore] at hp
  · intro q hq
    simp [emptyStore] at hq

/-- Shape of a successful `submitRating`: the transaction commits the new
aggregate and the appended rating record together. -/
lemma submitRating_ok_spec (s : Store) (d rr pax : String) (r : ℚ) (rv i : String)
    (n : ℕ) (u : UserDoc) (hu : getDoc s.users d = some u) :
    ∃ s2, submitRating s d rr pax r rv i n = .ok s2 ∧
      getDoc s2.users d = some { u with rating := some ⟨((u.rating.getD ⟨0, 0⟩).average * (((u.rating.getD ⟨0, 0⟩).count : ℕ) : ℚ) + r) / ((((u.rating.getD ⟨0, 0⟩).count + 1 : ℕ)) : ℚ), (u.rating.getD ⟨0, 0⟩).count + 1⟩ } ∧
      s2.ratings = s.ratings ++ [(i,
        { driverId := d, rideRequestId := rr, passengerId := pax,
          rating := r, review := rv, timestamp := n })] := by
  refine ⟨_, by unfold submitRating; rw [hu], ?_, rfl⟩
  dsimp only
  rw [getDoc_updateDocIn, hu]
  rfl

/-! ## Claim theorems -/

/-- C1 (amended): in every store reachable by the service operations, a ride
request whose status is ACCEPTED carries both a non-null `acceptedBidId` and
a non-null `acceptedBid` (all three fields are written together by the one
`updateDoc` of `acceptBid`); however, the denormalised `acceptedBid`
snapshot is the raw bid document data, which carries NO `id` key, so
`acceptedBid.id` is unset rather than equal to `acceptedBidId`. -/
theorem accepted_request_has_bid_snapshot :
    ∀ (ops : List Op) (rid : String) (req : RequestDoc),
      getDoc (runOps ops emptyStore).requests rid = some req →
      req.status = Status.ACCEPTED →
      (∃ b, req.acceptedBidId = some b) ∧
        ∃ bd, req.acceptedBid = some bd ∧ bd.id = none := by
  intro ops rid req hget hacc
  have hinv := acceptedInv_runOps ops emptyStore acceptedInv_emptyStore
  exact hinv.1 (rid, req) (getDoc_mem hget) hacc

theorem accepted_request_has_bid_snapshot_witness :
    (getDoc sAccepted.requests "r1" = some reqAccepted ∧
      reqAccepted.status = Status.ACCEPTED) ∧
    ((∃ b, reqAccepted.acceptedBidId = some b) ∧
      ∃ bd, reqAccepted.acceptedBid = some bd ∧ bd.id = none) :=
  ⟨⟨by decide, by decide⟩,
    accepted_request_has_bid_snapshot
      [Op.create paxUser "Lekki" "Ikeja" "r1" 0,
       Op.addBid "r1" drvUser 3000 none "b1" 1,
       Op.accept "r1" "b1"] "r1" reqAccepted (by decide) (by decide)⟩

/-- C1 counterexample: after an acceptance, the stored `acceptedBid`
snapshot's `id` field is absent (`none`), so "acceptedBid.id equals
acceptedBidId" is false — `acceptedBidId` is `"b1"` but `acceptedBid.id` is
not `"b1"` (there is no id in the snapshot at all). -/
theorem acceptedBid_id_missing_counterexample :
    (getDoc sAccepted.requests "r1").map RequestDoc.status = some Status.ACCEPTED ∧
    (getDoc sAccepted.requests "r1").bind RequestDoc.acceptedBidId = some "b1" ∧
    ((getDoc sAccepted.requests "r1").bind RequestDoc.acceptedBid).map BidData.id
      = some none := by decide

/-- C2 (amended): `acceptBid` checks only that the bid exists — a missing
bid makes it throw the generic `Error("Bid not found!")` (the source defines
no `NotFoundError` class).  It never reads the request's status: on ANY
existing request, PENDING or not, acceptance succeeds and overwrites
`status`, `acceptedBidId` and `acceptedBid`, so of two successive accept
attempts both succeed and the later one wins; no `InvalidStateError` exists
anywhere in the source. -/
theorem acceptBid_checks_only_bid_existence :
    (∀ (s : Store) (r b : String), getBid s r b = none →
        acceptBid s r b = .error "Bid not found!") ∧
    (∀ (s : Store) (r b : String) (bd : BidData) (req : RequestDoc),
        getBid s r b = some bd → getDoc s.requests r = some req →
        ∃ s2, acceptBid s r b = .ok s2 ∧
          getDoc s2.requests r
            = some { req with status := Status.ACCEPTED,
                              acceptedBidId := some b,
                              acceptedBid := some bd }) := by
  constructor
  · intro s r b hnone
    unfold acceptBid
    rw [hnone]
  · intro s r b bd req hgb hgr
    refine ⟨_, by unfold acceptBid; rw [hgb, hgr], ?_⟩
    dsimp only
    rw [getDoc_updateDocIn, hgr]
    rfl

theorem acceptBid_checks_only_bid_existence_witness :
    getBid emptyStore "r1" "b1" = none ∧
    acceptBid emptyStore "r1" "b1" = .error "Bid not found!" :=
  ⟨by decide, acceptBid_checks_only_bid_existence.1 emptyStore "r1" "b1" (by decide)⟩

/-- C2 counterexample: `r1` is already ACCEPTED (bid `b1` won), yet a second
accept attempt — the "loser" of the race — succeeds instead of failing with
`InvalidStateError`. -/
theorem acceptBid_on_accepted_succeeds_counterexample :
    (getDoc sAcceptedTwoBids.requests "r1").map RequestDoc.status
        = some Status.ACCEPTED ∧
    (acceptBid sAcceptedTwoBids "r1" "b2").isOk = true := by decide

/-- C3 (amended): `createRideRequest` performs no uniqueness check and can
never fail with `ConflictError` (no such class exists in the source): every
call inserts one more PENDING request for the passenger, so a passenger who
already has an active (PENDING or ACCEPTED) request ends up with two. -/
theorem createRideRequest_always_inserts_active :
    ∀ (s : Store) (passenger : User) (location destination newId : String)
      (now : ℕ),
      activeRequestCount
          (createRideRequest s passenger location destination newId now)
          passenger.id
        = activeRequestCount s passenger.id + 1 := by
  intro s p l d i n
  unfold activeRequestCount createRideRequest
  simp [List.filter_append]

/-- C3 counterexample: passenger `p1` already has a PENDING request, and the
store accepts a second one — two active requests for the same passenger,
violating the claimed uniqueness invariant. -/
theorem duplicate_active_request_counterexample :
    activeRequestCount sPending "p1" = 1 ∧
    activeRequestCount
      (createRideRequest sPending paxUser "Lekki" "Ikeja" "r2" 1) "p1" = 2 := by
  decide

/-- C6 (amended): `cancelRideRequest` never checks the status: it is a bare
unconditional `deleteDoc`, succeeding in every status (no `InvalidStateError`
exists in the source).  On any call the request record is removed from the
store entirely (hard delete) and other requests are untouched. -/
theorem cancelRideRequest_unconditional_delete :
    ∀ (s : Store) (requestId other : String),
      getDoc (cancelRideRequest s requestId).requests requestId = none ∧
      (other ≠ requestId →
        getDoc (cancelRideRequest s requestId).requests other
          = getDoc s.requests other) := by
  intro s r o
  exact ⟨getDoc_deleteDocFrom s.requests r,
    fun hne => getDoc_deleteDocFrom_ne s.requests r o hne⟩

theorem cancelRideRequest_unconditional_delete_witness :
    ("r2" : String) ≠ "r1" ∧
    getDoc (cancelRideRequest sPending "r1").requests "r2"
      = getDoc sPending.requests "r2" :=
  ⟨by decide,
    (cancelRideRequest_unconditional_delete sPending "r1" "r2").2 (by decide)⟩

/-- C6 counterexample: request `r1` is ACCEPTED, and `cancelRideRequest`
nevertheless succeeds and hard-deletes it — the claim's "fails with
InvalidStateError in every other status" is false. -/
theorem cancel_accepted_succeeds_counterexample :
    (getDoc sAccepted.requests "r1").map RequestDoc.status = some Status.ACCEPTED ∧
    getDoc (cancelRideRequest sAccepted "r1").requests "r1" = none := by decide

/-- C4: `submitRating` is one atomic transaction: when the driver profile is
missing it fails with `"Driver does not exist!"` and changes nothing; when it
exists with aggregate `{average: a, count: c}` the whole transaction commits,
writing back exactly `{average: (a*c + r)/(c+1), count: c+1}` and appending
the rating record, together; a driver at `{average: 4.0, count: 3}` receiving
a rating of 5 ends at exactly `{average: 4.25, count: 4}` with the rating
record inserted. -/
theorem submitRating_atomic_average :
    (∀ (s : Store) (d rr pax : String) (r : ℚ) (rv i : String) (n : ℕ),
        getDoc s.users d = none →
        submitRating s d rr pax r rv i n = .error "Driver does not exist!" ∧
        applyOp s (Op.rate d rr pax r rv i n) = s) ∧
    (∀ (s : Store) (d rr pax : String) (r : ℚ) (rv i : String) (n : ℕ)
        (u : UserDoc) (a : ℚ) (c : ℕ),
        getDoc s.users d = some u → u.rating = some { average := a, count := c } →
        ∃ s2, submitRating s d rr pax r rv i n = .ok s2 ∧
          getDoc s2.users d = some { u with rating := some ⟨(a * (c : ℚ) + r) / ((c : ℚ) + 1), c + 1⟩ } ∧
          s2.ratings = s.ratings ++ [(i,
            { driverId := d, rideRequestId := rr, passengerId := pax,
              rating := r, review := rv, timestamp := n })]) ∧
    ((getDoc (applyOp sDriver43 (Op.rate "d1" "ride1" "p1" 5 "" "t1" 9)).users
          "d1").bind UserDoc.rating
        = some { average := 4.25, count := 4 } ∧
      ratingCountFor (applyOp sDriver43 (Op.rate "d1" "ride1" "p1" 5 "" "t1" 9))
          "ride1" = 1) := by
  have hconc := submitRating_ok_spec sDriver43 "d1" "ride1" "p1" 5 "" "t1" 9
    drvDoc43 (by decide)
  obtain ⟨s2, hok, husers, hrats⟩ := hconc
  refine ⟨?_, ?_, ?_, ?_⟩
  · intro s d rr pax r rv i n hnone
    constructor
    · unfold submitRating
      rw [hnone]
    · simp only [applyOp]
      rw [show submitRating s d rr pax r rv i n = .error "Driver does not exist!"
          from by unfold submitRating; rw [hnone]]
  · intro s d rr pax r rv i n u a c hu hrat
    obtain ⟨s2b, hok2, husers2, hrats2⟩ :=
      submitRating_ok_spec s d rr pax r rv i n u hu
    refine ⟨s2b, hok2, ?_, hrats2⟩
    rw [husers2]
    simp only [hrat, Option.getD_some, Nat.cast_add, Nat.cast_one]
  · simp only [applyOp]
    rw [hok, husers]
    norm_num [drvDoc43]
  · simp only [applyOp]
    rw [hok]
    unfold ratingCountFor
    rw [hrats]
    simp [sDriver43, emptyStore]

theorem submitRating_atomic_average_witness :
    getDoc emptyStore.users "d0" = none ∧
    submitRating emptyStore "d0" "x" "p" 5 "" "t" 0
      = .error "Driver does not exist!" ∧
    applyOp emptyStore (Op.rate "d0" "x" "p" 5 "" "t" 0) = emptyStore :=
  ⟨by decide,
    (submitRating_atomic_average.1 emptyStore "d0" "x" "p" 5 "" "t" 0 (by decide)).1,
    (submitRating_atomic_average.1 emptyStore "d0" "x" "p" 5 "" "t" 0 (by decide)).2⟩

/-- C5 (amended): `submitRating` enforces no per-ride uniqueness: every
successful call appends one more rating record for the ride, so two calls
for the same `rideRequestId` leave two records in the store.  (The only
guard in the source is read-side: `getRideToRateForPassenger` stops
prompting once a rating row exists.) -/
theorem submitRating_appends_record :
    ∀ (s : Store) (d rr pax : String) (r : ℚ) (rv i : String) (n : ℕ)
      (u : UserDoc),
      getDoc s.users d = some u →
      ∃ s2, submitRating s d rr pax r rv i n = .ok s2 ∧
        ratingCountFor s2 rr = ratingCountFor s rr + 1 := by
  intro s d rr pax r rv i n u hu
  refine ⟨_, by unfold submitRating; rw [hu], ?_⟩
  unfold ratingCountFor
  dsimp only
  simp [List.filter_append]

theorem submitRating_appends_record_witness :
    getDoc sDriver43.users "d1" = some drvDoc43 ∧
    ∃ s2, submitRating sDriver43 "d1" "X" "p1" 5 "" "t1" 0 = .ok s2 ∧
      ratingCountFor s2 "X" = ratingCountFor sDriver43 "X" + 1 :=
  ⟨by decide,
    submitRating_appends_record sDriver43 "d1" "X" "p1" 5 "" "t1" 0 drvDoc43
      (by decide)⟩

/-- C5 counterexample: two `submitRating` calls for the same ride `X` (as in
two near-simultaneous submissions, each re-running the transaction) leave TWO
rating records with `rideRequestId = "X"` — the claimed at-most-one invariant
is not enforced. -/
theorem two_ratings_same_ride_counterexample :
    ratingCountFor
      (runOps [Op.rate "d1" "X" "p1" 5 "" "t1" 0,
               Op.rate "d1" "X" "p1" 4 "" "t2" 1] sDriver43) "X" = 2 := by decide

/-- C7 (amended): `addBidToRequest` performs NO validation: for any driver
(verified or not) and ANY amount (including non-positive ones) the bid is
stored; no `PermissionError` or `ValidationError` exists in the source.  The
only guards are in the UI: the bid modal's submit handler invokes the service
exactly when the parsed amount is a number strictly greater than 0 (and no
bid is in flight), silently doing nothing otherwise, and the dashboard never
shows the bidding UI to unverified drivers. -/
theorem addBidToRequest_no_validation :
    (∀ (s : Store) (requestId : String) (driver : User) (amount : ℚ)
        (loc : Option (ℚ × ℚ)) (newBidId : String) (now : ℕ),
        getBid s requestId newBidId = none →
        getBid (addBidToRequest s requestId driver amount loc newBidId now)
            requestId newBidId
          = some { id := none
                   driver := { id := driver.id, name := driver.name,
                               avatarUrl := driver.avatarUrl,
                               email := driver.email, role := Role.DRIVER,
                               isVerified := driver.isVerified,
                               carDetails := driver.carDetails,
                               rating := driver.rating }
                   amount := amount
                   driverLocation := loc
                   timestamp := now }) ∧
    (∀ (parsedAmount : Option ℤ) (isBidding : Bool),
        bidModalSubmitGuard parsedAmount isBidding = true ↔
          (∃ v, parsedAmount = some v ∧ 0 < v) ∧ isBidding = false) := by
  constructor
  · intro s r driver amount loc i n h
    exact getBid_append_fresh s r i _ h
  · intro parsed isBidding
    cases parsed with
    | none => simp [bidModalSubmitGuard]
    | some v => cases isBidding <;> simp [bidModalSubmitGuard]

theorem addBidToRequest_no_validation_witness :
    getBid emptyStore "r1" "b1" = none ∧
    getBid (addBidToRequest emptyStore "r1" unverifiedUser (-5) none "b1" 0)
        "r1" "b1"
      = some { id := none
               driver := { id := unverifiedUser.id, name := unverifiedUser.name,
                           avatarUrl := unverifiedUser.avatarUrl,
                           email := unverifiedUser.email, role := Role.DRIVER,
                           isVerified := unverifiedUser.isVerified,
                           carDetails := unverifiedUser.carDetails,
                           rating := unverifiedUser.rating }
               amount := -5
               driverLocation := none
               timestamp := 0 } :=
  ⟨by decide,
    addBidToRequest_no_validation.1 emptyStore "r1" unverifiedUser (-5) none "b1" 0
      (by decide)⟩

/-- C7 counterexample: an UNVERIFIED driver bidding a NEGATIVE amount — the
claim says this fails (PermissionError / ValidationError) with no bid stored,
but the service succeeds and the bid IS stored. -/
theorem addBid_unverified_negative_counterexample :
    unverifiedUser.isVerified = false ∧
    ((getBid (addBidToRequest emptyStore "r1" unverifiedUser (-5) none "b1" 0)
        "r1" "b1").map BidData.amount = some (-5)) := by decide

/-- C8 (amended): `listenForBids` returns all of the request's bids sorted
ascending by `amount` (a permutation of the subcollection), and the spec's
concrete scenario [5000, 3000, 4000] ↦ [3000, 4000, 5000] holds; ties in
`amount`, however, are broken by Firestore's implicit `__name__` (document
id) ordering — the random auto id — not by timestamp/insertion order. -/
theorem listenForBids_sorted_by_amount :
    (∀ (s : Store) (r : String),
        (listenForBids s r).Sorted (fun a b => a.2.amount ≤ b.2.amount)) ∧
    (∀ (s : Store) (r : String),
        (listenForBids s r).Perm
          ((s.bids.filter (fun p => p.1 == r)).map (fun p => (p.2.1, p.2.2)))) ∧
    (listenForBids sBidsScenario "r1").map (fun p => p.2.amount)
      = [3000, 4000, 5000] := by
  refine ⟨?_, ?_, by decide⟩
  · intro s r
    have hs := List.sorted_insertionSort bidOrder
      ((s.bids.filter (fun p => p.1 == r)).map (fun p => (p.2.1, p.2.2)))
    exact hs.imp (fun hab => by
      rcases hab with h | ⟨he, _⟩
      · exact le_of_lt h
      · exact le_of_eq he)
  · intro s r
    exact List.perm_insertionSort bidOrder _

/-- C8 counterexample: two bids of EQUAL amount, submitted at timestamps 1
then 2 but under document ids "zz" then "aa": the query returns them in id
order ("aa" first), i.e. timestamps [2, 1] — NOT ascending timestamp /
insertion order as claimed. -/
theorem bid_tie_not_by_timestamp_counterexample :
    (listenForBids sBidsTie "r1").map (fun p => p.2.amount) = [3000, 3000] ∧
    (listenForBids sBidsTie "r1").map (fun p => p.2.timestamp) = [2, 1] := by
  decide

/-- C10: when the driver profile exists but has no rating aggregate,
`submitRating` treats it as `{average: 0, count: 0}`, so the first-ever
rating `r` yields exactly `{average: r, count: 1}`. -/
theorem submitRating_first_rating :
    ∀ (s : Store) (d rr pax : String) (r : ℚ) (rv i : String) (n : ℕ)
      (u : UserDoc),
      getDoc s.users d = some u → u.rating = none →
      ∃ s2, submitRating s d rr pax r rv i n = .ok s2 ∧
        getDoc s2.users d
          = some { u with rating := some { average := r, count := 1 } } := by
  intro s d rr pax r rv i n u hu hrat
  obtain ⟨s2, hok, husers, hrats⟩ := submitRating_ok_spec s d rr pax r rv i n u hu
  refine ⟨s2, hok, ?_⟩
  rw [husers]
  simp only [hrat, Option.getD_none]
  norm_num

/-! ## Distance / ETA analysis (claim C9)

Interval bounds for the haversine value at the spec's concrete coordinates,
with Taylor bounds (`Real.sin_bound` / `Real.cos_bound`) and the `π` digit
bounds; the computed distance is ≈ 11.70 km (NOT ≈ 12.1 km) and the derived
ETA is 23 minutes (NOT 24). -/

lemma sin_ge_of_bounds (x xl xu : ℝ) (h1 : xl ≤ x) (h2 : x ≤ xu) (h0 : 0 ≤ xl)
    (h3 : xu ≤ 1) : xl - xu ^ 3 / 6 - xu ^ 4 * (5 / 96) ≤ Real.sin x := by
  have hx0 : 0 ≤ x := le_trans h0 h1
  have hxabs : |x| ≤ 1 := by rw [abs_of_nonneg hx0]; linarith
  have hb := abs_sub_le_iff.mp (Real.sin_bound hxabs)
  rw [abs_of_nonneg hx0] at hb
  have hx3 : x ^ 3 ≤ xu ^ 3 := pow_le_pow_left hx0 h2 3
  have hx4 : x ^ 4 ≤ xu ^ 4 := pow_le_pow_left hx0 h2 4
  linarith [hb.2]

lemma sin_le_of_nonneg (x xu : ℝ) (h0 : 0 ≤ x) (h2 : x ≤ xu) : Real.sin x ≤ xu := by
  rcases eq_or_lt_of_le h0 with h | h
  · rw [← h, Real.sin_zero]; linarith
  · exact le_trans (Real.sin_lt h).le h2

lemma cos_bounds_of (x xl xu : ℝ) (h1 : xl ≤ x) (h2 : x ≤ xu) (h0 : 0 ≤ xl)
    (h3 : xu ≤ 1) :
    1 - xu ^ 2 / 2 - xu ^ 4 * (5 / 96) ≤ Real.cos x ∧
      Real.cos x ≤ 1 - xl ^ 2 / 2 + xu ^ 4 * (5 / 96) := by
  have hx0 : 0 ≤ x := le_trans h0 h1
  have hxabs : |x| ≤ 1 := by rw [abs_of_nonneg hx0]; linarith
  have hb := abs_sub_le_iff.mp (Real.cos_bound hxabs)
  rw [abs_of_nonneg hx0] at hb
  have hx2l : xl ^ 2 ≤ x ^ 2 := pow_le_pow_left h0 h1 2
  have hx2u : x ^ 2 ≤ xu ^ 2 := pow_le_pow_left hx0 h2 2
  have hx4 : x ^ 4 ≤ xu ^ 4 := pow_le_pow_left hx0 h2 4
  constructor
  · linarith [hb.2]
  · linarith [hb.1]

lemma self_le_arcsin (x : ℝ) (h0 : 0 ≤ x) (h1 : x ≤ 1) : x ≤ Real.arcsin x := by
  have ht0 : 0 ≤ Real.arcsin x := Real.arcsin_nonneg.mpr h0
  have hs : Real.sin (Real.arcsin x) = x := Real.sin_arcsin (by linarith) h1
  rcases eq_or_lt_of_le ht0 with h | h
  · rw [← h, Real.sin_zero] at hs
    linarith
  · have hlt := Real.sin_lt h
    rw [hs] at hlt
    exact hlt.le

lemma arcsin_le_of_le_sin (x U : ℝ) (hU0 : 0 ≤ U) (hUpi : U ≤ Real.pi / 2)
    (h : x ≤ Real.sin U) : Real.arcsin x ≤ U := by
  have hm := Real.monotone_arcsin h
  rwa [Real.arcsin_sin (by linarith [Real.pi_pos]) hUpi] at hm

lemma jsAtan2_sqrt_eq_arcsin (a : ℝ) :
    jsAtan2 (Real.sqrt a) (Real.sqrt (1 - a)) = Real.arcsin (Real.sqrt a) := by
  rcases lt_or_le a 1 with hlt | hge
  · have hx : 0 < Real.sqrt (1 - a) := Real.sqrt_pos.mpr (by linarith)
    rw [jsAtan2, if_pos hx]
    rcases le_or_lt a 0 with ha0 | ha0
    · rw [Real.sqrt_eq_zero_of_nonpos ha0]
      simp [Real.arctan_zero, Real.arcsin_zero]
    · have hsa1 : Real.sqrt a < 1 := by
        rw [show (1 : ℝ) = Real.sqrt 1 by rw [Real.sqrt_one]]
        exact Real.sqrt_lt_sqrt ha0.le hlt
      have hmem : Real.sqrt a ∈ Set.Ioo (-1 : ℝ) 1 :=
        Set.mem_Ioo.mpr ⟨by linarith [Real.sqrt_nonneg a], hsa1⟩
      rw [Real.arcsin_eq_arctan hmem, Real.sq_sqrt ha0.le]
  · have hx : Real.sqrt (1 - a) = 0 := Real.sqrt_eq_zero_of_nonpos (by linarith)
    have hy : 0 < Real.sqrt a := Real.sqrt_pos.mpr (by linarith)
    rw [jsAtan2, hx]
    rw [if_neg (lt_irrefl 0), if_neg (by simp), if_neg (by simp [hy.le, not_lt]),
      if_pos ⟨rfl, hy⟩]
    have h1a : 1 ≤ Real.sqrt a :=
      Real.le_sqrt_of_sq_le (by nlinarith)
    rw [Real.arcsin_of_one_le h1a]

lemma getDistance_eq_haversineSpec (lat1 lon1 lat2 lon2 : ℝ) :
    getDistanceFromLatLonInKm lat1 lon1 lat2 lon2
      = haversineDistanceSpec lat1 lon1 lat2 lon2 := by
  unfold getDistanceFromLatLonInKm haversineDistanceSpec
  dsimp only
  have hA : Real.sin ((lat2 - lat1) * (Real.pi / 180) / 2) *
        Real.sin ((lat2 - lat1) * (Real.pi / 180) / 2) +
      Real.cos (lat1 * (Real.pi / 180)) * Real.cos (lat2 * (Real.pi / 180)) *
        Real.sin ((lon2 - lon1) * (Real.pi / 180) / 2) *
        Real.sin ((lon2 - lon1) * (Real.pi / 180) / 2)
      = Real.sin ((lat2 - lat1) * (Real.pi / 180) / 2) ^ 2 +
      Real.cos (lat1 * (Real.pi / 180)) * Real.cos (lat2 * (Real.pi / 180)) *
        Real.sin ((lon2 - lon1) * (Real.pi / 180) / 2) ^ 2 := by ring
  rw [hA, jsAtan2_sqrt_eq_arcsin]
  ring

lemma calculateEta_eq_max (d : ℝ) :
    calculateEtaInMinutes d = max 1 (round (d / 30 * 60)) := by
  unfold calculateEtaInMinutes
  dsimp only
  by_cases h : round (d / 30 * 60) < 1
  · rw [if_pos h]
    exact (max_eq_left (by omega)).symm
  · rw [if_neg h]
    exact (max_eq_right (by omega)).symm

set_option maxHeartbeats 2000000 in
lemma sin1_concrete :
    (0.0008403748 : ℝ) ≤ Real.sin (0.0963 * (Real.pi / 360)) ∧
      Real.sin (0.0963 * (Real.pi / 360)) ≤ 0.000840377 := by
  have hpl := Real.pi_gt_d6
  have hpu := Real.pi_lt_d6
  have hxl : (0.000840375 : ℝ) ≤ 0.0963 * (Real.pi / 360) := by nlinarith
  have hxu : 0.0963 * (Real.pi / 360) ≤ 0.000840377 := by nlinarith
  constructor
  · have h := sin_ge_of_bounds (0.0963 * (Real.pi / 360)) 0.000840375 0.000840377
      hxl hxu (by norm_num) (by norm_num)
    have hc : (0.0008403748 : ℝ)
        ≤ 0.000840375 - 0.000840377 ^ 3 / 6 - 0.000840377 ^ 4 * (5 / 96) := by
      norm_num
    linarith
  · exact sin_le_of_nonneg _ _ (by nlinarith) hxu

set_option maxHeartbeats 2000000 in
lemma sin2_concrete :
    (0.0003726269 : ℝ) ≤ Real.sin (0.0427 * (Real.pi / 360)) ∧
      Real.sin (0.0427 * (Real.pi / 360)) ≤ 0.000372628 := by
  have hpl := Real.pi_gt_d6
  have hpu := Real.pi_lt_d6
  have hxl : (0.000372627 : ℝ) ≤ 0.0427 * (Real.pi / 360) := by nlinarith
  have hxu : 0.0427 * (Real.pi / 360) ≤ 0.000372628 := by nlinarith
  constructor
  · have h := sin_ge_of_bounds (0.0427 * (Real.pi / 360)) 0.000372627 0.000372628
      hxl hxu (by norm_num) (by norm_num)
    have hc : (0.0003726269 : ℝ)
        ≤ 0.000372627 - 0.000372628 ^ 3 / 6 - 0.000372628 ^ 4 * (5 / 96) := by
      norm_num
    linarith
  · exact sin_le_of_nonneg _ _ (by nlinarith) hxu

set_option maxHeartbeats 2000000 in
lemma cos1_concrete :
    (0.9935077 : ℝ) ≤ Real.cos (6.5244 * (Real.pi / 180)) ∧
      Real.cos (6.5244 * (Real.pi / 180)) ≤ 0.9935254 := by
  have hpl := Real.pi_gt_d6
  have hpu := Real.pi_lt_d6
  have hxl : (0.113872 : ℝ) ≤ 6.5244 * (Real.pi / 180) := by nlinarith
  have hxu : 6.5244 * (Real.pi / 180) ≤ 0.113873 := by nlinarith
  obtain ⟨hl, hu⟩ := cos_bounds_of (6.5244 * (Real.pi / 180)) 0.113872 0.113873
    hxl hxu (by norm_num) (by norm_num)
  constructor
  · have hc : (0.9935077 : ℝ)
        ≤ 1 - 0.113873 ^ 2 / 2 - 0.113873 ^ 4 * (5 / 96) := by norm_num
    linarith
  · have hc : (1 : ℝ) - 0.113872 ^ 2 / 2 + 0.113873 ^ 4 * (5 / 96) ≤ 0.9935254 := by
      norm_num
    linarith

set_option maxHeartbeats 2000000 in
lemma cos2_concrete :
    (0.9936982 : ℝ) ≤ Real.cos (6.4281 * (Real.pi / 180)) ∧
      Real.cos (6.4281 * (Real.pi / 180)) ≤ 0.9937149 := by
  have hpl := Real.pi_gt_d6
  have hpu := Real.pi_lt_d6
  have hxl : (0.112191 : ℝ) ≤ 6.4281 * (Real.pi / 180) := by nlinarith
  have hxu : 6.4281 * (Real.pi / 180) ≤ 0.112192 := by nlinarith
  obtain ⟨hl, hu⟩ := cos_bounds_of (6.4281 * (Real.pi / 180)) 0.112191 0.112192
    hxl hxu (by norm_num) (by norm_num)
  constructor
  · have hc : (0.9936982 : ℝ)
        ≤ 1 - 0.112192 ^ 2 / 2 - 0.112192 ^ 4 * (5 / 96) := by norm_num
    linarith
  · have hc : (1 : ℝ) - 0.112191 ^ 2 / 2 + 0.112192 ^ 4 * (5 / 96) ≤ 0.9936982 + 0.0000167 := by
      norm_num
    linarith

set_option maxHeartbeats 2000000 in
lemma concrete_distance_bounds :
    11.69 < getDistanceFromLatLonInKm 6.5244 3.3792 6.4281 3.4219 ∧
      getDistanceFromLatLonInKm 6.5244 3.3792 6.4281 3.4219 < 11.71 := by
  have e1 : ((6.4281 : ℝ) - 6.5244) * (Real.pi / 180) / 2
      = -(0.0963 * (Real.pi / 360)) := by
    rw [show ((6.4281 : ℝ) - 6.5244) = -0.0963 by norm_num]
    ring
  have e2 : ((3.4219 : ℝ) - 3.3792) * (Real.pi / 180) / 2
      = 0.0427 * (Real.pi / 360) := by
    rw [show ((3.4219 : ℝ) - 3.3792) = 0.0427 by norm_num]
    ring
  rw [getDistance_eq_haversineSpec]
  unfold haversineDistanceSpec
  dsimp only
  rw [e1, e2, Real.sin_neg, neg_sq]
  obtain ⟨hs1l, hs1u⟩ := sin1_concrete
  obtain ⟨hs2l, hs2u⟩ := sin2_concrete
  obtain ⟨hc1l, hc1u⟩ := cos1_concrete
  obtain ⟨hc2l, hc2u⟩ := cos2_concrete
  set s1 := Real.sin (0.0963 * (Real.pi / 360)) with hs1def
  set s2 := Real.sin (0.0427 * (Real.pi / 360)) with hs2def
  set c1 := Real.cos (6.5244 * (Real.pi / 180)) with hc1def
  set c2 := Real.cos (6.4281 * (Real.pi / 180)) with hc2def
  have hq1 : (0.0008403748 : ℝ) ^ 2 ≤ s1 ^ 2 := by nlinarith
  have hq1u : s1 ^ 2 ≤ (0.000840377 : ℝ) ^ 2 := by nlinarith
  have hq2 : (0.0003726269 : ℝ) ^ 2 ≤ s2 ^ 2 := by nlinarith
  have hq2u : s2 ^ 2 ≤ (0.000372628 : ℝ) ^ 2 := by nlinarith
  have hq3 : (0.9935077 : ℝ) * 0.9936982 ≤ c1 * c2 :=
    mul_le_mul hc1l hc2l (by norm_num) (by linarith)
  have hq3u : c1 * c2 ≤ (0.9935254 : ℝ) * 0.9937149 :=
    mul_le_mul hc1u hc2u (by linarith) (by norm_num)
  have hq4 : (0.9935077 : ℝ) * 0.9936982 * (0.0003726269 ^ 2) ≤ c1 * c2 * s2 ^ 2 :=
    mul_le_mul hq3 hq2 (by norm_num) (by nlinarith)
  have hq4u : c1 * c2 * s2 ^ 2 ≤ (0.9935254 : ℝ) * 0.9937149 * (0.000372628 ^ 2) :=
    mul_le_mul hq3u hq2u (by nlinarith) (by norm_num)
  have hAlo : (0.000918 : ℝ) ^ 2 ≤ s1 ^ 2 + c1 * c2 * s2 ^ 2 := by
    have hc : (0.000918 : ℝ) ^ 2
        ≤ 0.0008403748 ^ 2 + 0.9935077 * 0.9936982 * (0.0003726269 ^ 2) := by
      norm_num
    linarith
  have hSU : (0 : ℝ) < 0.00091833 - 0.00091833 ^ 3 / 6 - 0.00091833 ^ 4 * (5 / 96) := by
    norm_num
  have hAhi : s1 ^ 2 + c1 * c2 * s2 ^ 2
      ≤ (0.00091833 - 0.00091833 ^ 3 / 6 - 0.00091833 ^ 4 * (5 / 96)) ^ 2 := by
    have hc : (0.000840377 : ℝ) ^ 2 + 0.9935254 * 0.9937149 * (0.000372628 ^ 2)
        ≤ (0.00091833 - 0.00091833 ^ 3 / 6 - 0.00091833 ^ 4 * (5 / 96)) ^ 2 := by
      norm_num
    linarith
  have hA1 : s1 ^ 2 + c1 * c2 * s2 ^ 2 ≤ 1 := by nlinarith
  have hsqrt_lo : (0.000918 : ℝ) ≤ Real.sqrt (s1 ^ 2 + c1 * c2 * s2 ^ 2) :=
    Real.le_sqrt_of_sq_le hAlo
  have hsqrt_le_one : Real.sqrt (s1 ^ 2 + c1 * c2 * s2 ^ 2) ≤ 1 := by
    rw [show (1 : ℝ) = Real.sqrt 1 by rw [Real.sqrt_one]]
    exact Real.sqrt_le_sqrt hA1
  have harcsin_lo : (0.000918 : ℝ)
      ≤ Real.arcsin (Real.sqrt (s1 ^ 2 + c1 * c2 * s2 ^ 2)) :=
    le_trans hsqrt_lo (self_le_arcsin _ (Real.sqrt_nonneg _) hsqrt_le_one)
  have hsinU : (0.00091833 : ℝ) - 0.00091833 ^ 3 / 6 - 0.00091833 ^ 4 * (5 / 96)
      ≤ Real.sin 0.00091833 :=
    sin_ge_of_bounds 0.00091833 0.00091833 0.00091833 le_rfl le_rfl
      (by norm_num) (by norm_num)
  have hsqrt_hi : Real.sqrt (s1 ^ 2 + c1 * c2 * s2 ^ 2) ≤ Real.sin 0.00091833 := by
    rw [Real.sqrt_le_iff]
    constructor
    · linarith
    · nlinarith
  have harcsin_hi : Real.arcsin (Real.sqrt (s1 ^ 2 + c1 * c2 * s2 ^ 2))
      ≤ 0.00091833 :=
    arcsin_le_of_le_sin _ _ (by norm_num) (by linarith [Real.pi_gt_three]) hsqrt_hi
  constructor
  · linarith
  · linarith

set_option maxHeartbeats 2000000 in
lemma concrete_eta :
    calculateEtaInMinutes (getDistanceFromLatLonInKm 6.5244 3.3792 6.4281 3.4219)
      = 23 := by
  obtain ⟨hlo, hhi⟩ := concrete_distance_bounds
  unfold calculateEtaInMinutes
  dsimp only
  have h2d : getDistanceFromLatLonInKm 6.5244 3.3792 6.4281 3.4219 / 30 * 60
      = 2 * getDistanceFromLatLonInKm 6.5244 3.3792 6.4281 3.4219 := by ring
  rw [h2d, round_eq]
  have hfloor : ⌊2 * getDistanceFromLatLonInKm 6.5244 3.3792 6.4281 3.4219
      + 1 / 2⌋ = (23 : ℤ) := by
    apply Int.floor_eq_iff.mpr
    constructor
    · push_cast
      linarith
    · push_cast
      linarith
  rw [hfloor]
  norm_num

/-- C9 (amended): the derived distance is exactly the haversine great-circle
distance with Earth radius 6371 km (the code's `atan2` formulation coincides
with the `arcsin` haversine form on all inputs), and the derived ETA equals
`round(distance / 30 * 60)` floored at a minimum of 1 minute; but for
passenger (6.5244, 3.3792) and driver (6.4281, 3.4219) the distance is ≈ 11.7
km (between 11.69 and 11.71, not ≈ 12.1) and the ETA is 23 minutes, not
24. -/
theorem distance_eta_projection :
    (∀ lat1 lon1 lat2 lon2 : ℝ,
        getDistanceFromLatLonInKm lat1 lon1 lat2 lon2
          = haversineDistanceSpec lat1 lon1 lat2 lon2) ∧
    (∀ d : ℝ, calculateEtaInMinutes d = max 1 (round (d / 30 * 60))) ∧
    (11.69 < getDistanceFromLatLonInKm 6.5244 3.3792 6.4281 3.4219 ∧
      getDistanceFromLatLonInKm 6.5244 3.3792 6.4281 3.4219 < 11.71 ∧
      calculateEtaInMinutes (getDistanceFromLatLonInKm 6.5244 3.3792 6.4281 3.4219)
        = 23) :=
  ⟨getDistance_eq_haversineSpec, calculateEta_eq_max,
    concrete_distance_bounds.1, concrete_distance_bounds.2, concrete_eta⟩

/-- C9 counterexample: at the spec's concrete coordinates the distance is
below 11.71 km (hence not ≈ 12.1 km) and the computed ETA is 23, not the
claimed 24 minutes. -/
theorem distance_eta_scenario_counterexample :
    getDistanceFromLatLonInKm 6.5244 3.3792 6.4281 3.4219 < 11.71 ∧
    calculateEtaInMinutes (getDistanceFromLatLonInKm 6.5244 3.3792 6.4281 3.4219)
      ≠ 24 :=
  ⟨concrete_distance_bounds.2, by rw [concrete_eta]; decide⟩

theorem submitRating_first_rating_witness :
    (getDoc sDriverNoAgg.users "d1" = some drvDocNoAgg ∧
      drvDocNoAgg.rating = none) ∧
    ∃ s2, submitRating sDriverNoAgg "d1" "ride1" "p1" 5 "" "t1" 0 = .ok s2 ∧
      getDoc s2.users "d1"
        = some { drvDocNoAgg with rating := some { average := 5, count := 1 } } :=
  ⟨⟨by decide, by decide⟩,
    submitRating_first_rating sDriverNoAgg "d1" "ride1" "p1" 5 "" "t1" 0
      drvDocNoAgg (by decide) (by decide)⟩

end Ridelink
